import Mathlib

/-!
Verification of the layer-reconciliation core of the `cfs-config-util` repository.

The definitions below are a shallow embedding of:
* `cfs_config_util/cfs.py` — `CFSConfigurationLayer` (`repo_path`, `matches`,
  `get_updated_values`, `req_payload`, `from_cfs`) and `CFSConfiguration`
  (`__init__`, `req_payload`, `ensure_layer`);
* the save loop of `main()` in `cfs_config_util/bin/main.py`;
* `get_components_by_status` and `wait_for_component_configuration` in
  `cfs_config_util/wait.py`.

Python `None`-able string attributes are embedded as `Option String`; Python
truthiness on such values (where both `None` and `""` are falsy) is the
`truthy` predicate.  Network and file I/O is replaced by explicit oracles
(a save-outcome flag per configuration, a per-round component-query oracle).
-/

namespace CfsConfigUtil

/-- Character allowed in a URL scheme after the first letter
(`scheme_chars` in `urllib.parse`: letters, digits, `+`, `-`, `.`). -/
def schemeChar (c : Char) : Bool :=
  c.isAlphanum || c == '+' || c == '-' || c == '.'

/-- Model of the scheme-stripping step of `urllib.parse.urlsplit`: if the URL
has a `:` preceded by a valid nonempty scheme (first character a letter, the
rest `schemeChar`s), drop everything up to and including the `:`. -/
def dropScheme (cs : List Char) : List Char :=
  let i := cs.findIdx (· == ':')
  if i == 0 || cs.length ≤ i then cs
  else
    let pre := cs.take i
    if (pre.headD ' ').isAlpha && (pre.drop 1).all schemeChar then
      cs.drop (i + 1)
    else cs

/-- Model of the netloc-stripping step of `urllib.parse.urlsplit`: if the
remainder starts with `//`, drop the network location, i.e. everything up to
the next `/`, `?` or `#`. -/
def dropNetloc : List Char → List Char
  | '/' :: '/' :: rest => rest.dropWhile (fun c => !(c == '/' || c == '?' || c == '#'))
  | cs => cs

/-- Model of `urllib.parse._splitparams`: strip a `;params` suffix from the
last path segment.  (In `urlparse` this runs for the schemes in `uses_params`,
which include `http`, `https` and the empty scheme; no clone URL in this
repository carries `;`, so applying it unconditionally is equivalent here.) -/
def splitParams (cs : List Char) : List Char :=
  if cs.contains ';' then
    if cs.contains '/' then
      let slashIdx := cs.length - 1 - (cs.reverse.findIdx (· == '/'))
      let tail := cs.drop slashIdx
      if tail.contains ';' then
        cs.take (slashIdx + tail.findIdx (· == ';'))
      else cs
    else cs.take (cs.findIdx (· == ';'))
  else cs

/-- Path component of a URL as computed by `urllib.parse.urlparse(url).path`:
strip the scheme, the `//netloc`, everything from the first `#` or `?` on, and
a `;params` suffix of the last segment.  (The WHATWG control-character
stripping of recent CPython is omitted; no input here contains such
characters.) -/
def urlparsePath (url : String) : String :=
  let cs := dropNetloc (dropScheme url.toList)
  (splitParams (cs.takeWhile (fun c => !(c == '#' || c == '?')))).asString

/-- Desired state of a layer in a CFSConfiguration (`LayerState` in `cfs.py`). -/
inductive LayerState
  | PRESENT
  | ABSENT
deriving DecidableEq, Repr

/-- A layer in a CFS configuration (`CFSConfigurationLayer` in `cfs.py`).
Fields follow the constructor arguments; `clone_url` is the required
clone-URL string (a missing `cloneUrl` in CFS data is embedded as `""`,
which is dropped from payloads exactly like Python's falsy `None`), the
other four attributes are optional strings. -/
structure CFSConfigurationLayer where
  clone_url : String
  name : Option String
  playbook : Option String
  commit : Option String
  branch : Option String
deriving DecidableEq, Repr

/-- Python truthiness of an optional string: `None` and `""` are falsy. -/
def truthy : Option String → Bool
  | none => false
  | some s => !(s == "")

/-- The path portion of the clone URL (`CFSConfigurationLayer.repo_path`). -/
def CFSConfigurationLayer.repo_path (self : CFSConfigurationLayer) : String :=
  urlparsePath self.clone_url

/-- Whether this layer matches the given layer
(`CFSConfigurationLayer.matches`): equal repo paths and equal playbooks.
(The `isinstance` guard of the source is vacuous in this typed embedding.) -/
def CFSConfigurationLayer.matches (self other_layer : CFSConfigurationLayer) : Bool :=
  self.repo_path == other_layer.repo_path && self.playbook == other_layer.playbook

/-- The `(CFS property, old value, new value)` triples underlying
`get_updated_values`, in the iteration order of `CFS_PROPS_TO_ATTRS`:
`cloneUrl`, `commit`, `branch`, `name`, `playbook`. -/
def CFSConfigurationLayer.propPairs (self new_layer : CFSConfigurationLayer) :
    List (String × Option String × Option String) :=
  [("cloneUrl", some self.clone_url, some new_layer.clone_url),
   ("commit", self.commit, new_layer.commit),
   ("branch", self.branch, new_layer.branch),
   ("name", self.name, new_layer.name),
   ("playbook", self.playbook, new_layer.playbook)]

/-- The values updated by the new version of this layer
(`CFSConfigurationLayer.get_updated_values`): the properties whose old and
new values differ, with those values. -/
def CFSConfigurationLayer.get_updated_values (self new_layer : CFSConfigurationLayer) :
    List (String × Option String × Option String) :=
  (self.propPairs new_layer).filter (fun p => !(p.2.1 == p.2.2))

/-- The request payload for this layer (`CFSConfigurationLayer.req_payload`):
the CFS properties with truthy values, in `CFS_PROPS_TO_ATTRS` order. -/
def CFSConfigurationLayer.req_payload (self : CFSConfigurationLayer) :
    List (String × String) :=
  [("cloneUrl", some self.clone_url), ("commit", self.commit), ("branch", self.branch),
   ("name", self.name), ("playbook", self.playbook)].filterMap
    (fun p => match p.2 with
      | some v => if v == "" then none else some (p.1, v)
      | none => none)

/-- Fallible constructor of `CFSConfigurationLayer`: the `__init__` of the
source raises `ValueError` unless `commit` or `branch` is truthy. -/
def CFSConfigurationLayer.mk? (clone_url : String)
    (name playbook commit branch : Option String) :
    Except String CFSConfigurationLayer :=
  if truthy commit || truthy branch then
    .ok ⟨clone_url, name, playbook, commit, branch⟩
  else
    .error "Either commit or branch is required to create a CFSConfigurationLayer."

/-- The JSON object for one layer as stored in CFS data or a configuration
file: each CFS property is either present with a string value or absent.
(A JSON `null` behaves like an absent key through `dict.get`.) -/
structure LayerData where
  cloneUrl : Option String
  commit : Option String
  branch : Option String
  name : Option String
  playbook : Option String
deriving DecidableEq, Repr

/-- Build a layer from CFS response data (`CFSConfigurationLayer.from_cfs`):
every attribute is `data.get(prop)`, then the constructor validates that
`commit` or `branch` is truthy. -/
def CFSConfigurationLayer.from_cfs (data : LayerData) :
    Except String CFSConfigurationLayer :=
  CFSConfigurationLayer.mk? (data.cloneUrl.getD "") data.name data.playbook
    data.commit data.branch

/-- All fields present in a stored layer object, with their values. -/
def LayerData.fields (d : LayerData) : List (String × String) :=
  [("cloneUrl", d.cloneUrl), ("commit", d.commit), ("branch", d.branch),
   ("name", d.name), ("playbook", d.playbook)].filterMap
    (fun p => p.2.map (fun v => (p.1, v)))

/-- The fields of a stored layer object whose values are truthy
(non-empty) strings. -/
def LayerData.truthyFields (d : LayerData) : List (String × String) :=
  [("cloneUrl", d.cloneUrl), ("commit", d.commit), ("branch", d.branch),
   ("name", d.name), ("playbook", d.playbook)].filterMap
    (fun p => match p.2 with
      | some v => if v == "" then none else some (p.1, v)
      | none => none)

/-- A single configuration in CFS (`CFSConfiguration` in `cfs.py`):
the parsed layer list plus the `changed` flag.  (The API-client handle and
the raw response dict are I/O plumbing and are not part of the embedding.) -/
structure CFSConfiguration where
  layers : List CFSConfigurationLayer
  changed : Bool
deriving DecidableEq, Repr

/-- The scan loop of `CFSConfiguration.ensure_layer` (`for existing_layer in
self.layers`), returning the accumulated `new_layers`, the `found_match` flag
and whether the scan set `self.changed`. -/
def ensureLayerScan (layer : CFSConfigurationLayer) (state : LayerState) :
    List CFSConfigurationLayer → List CFSConfigurationLayer × Bool × Bool
  | [] => ([], false, false)
  | existing_layer :: rest =>
    let r := ensureLayerScan layer state rest
    if layer.matches existing_layer then
      match state with
      | .ABSENT => (r.1, true, true)
      | .PRESENT =>
        (layer :: r.1, true,
          !(existing_layer.get_updated_values layer).isEmpty || r.2.2)
    else
      (existing_layer :: r.1, r.2.1, r.2.2)

/-- Ensure a layer exists or does not exist with the given parameters
(`CFSConfiguration.ensure_layer`): replace or drop every matching layer in
place, append the candidate when `PRESENT` finds no match, and accumulate
the `changed` flag. -/
def CFSConfiguration.ensure_layer (config : CFSConfiguration)
    (layer : CFSConfigurationLayer) (state : LayerState) : CFSConfiguration :=
  let r := ensureLayerScan layer state config.layers
  if r.2.1 then
    ⟨r.1, config.changed || r.2.2⟩
  else
    match state with
    | .PRESENT => ⟨r.1 ++ [layer], true⟩
    | .ABSENT => ⟨r.1, config.changed⟩

/-- The `layers` value of the request payload used to save a configuration
(`CFSConfiguration.req_payload`). -/
def CFSConfiguration.req_payload (config : CFSConfiguration) :
    List (List (String × String)) :=
  config.layers.map CFSConfigurationLayer.req_payload

/-- The list comprehension `[CFSConfigurationLayer.from_cfs(layer_data) for
layer_data in self.data.get('layers', [])]`: parse the layers in order,
propagating the first constructor error. -/
def parseLayers : List LayerData → Except String (List CFSConfigurationLayer)
  | [] => .ok []
  | d :: rest => do
    let l ← CFSConfigurationLayer.from_cfs d
    let ls ← parseLayers rest
    return l :: ls

/-- Construction of a `CFSConfiguration` from response/file data
(`CFSConfiguration.__init__`): parse every element of `data['layers']` with
`from_cfs` and initialize `changed` to `False`. -/
def CFSConfiguration.ofData (layers_data : List LayerData) :
    Except String CFSConfiguration := do
  let layers ← parseLayers layers_data
  return ⟨layers, false⟩

/-- Sequential application of several reconcile steps to one configuration
object (the `for layer in layers: base_config.ensure_layer(...)` pattern of
the callers). -/
def applyLayers (config : CFSConfiguration) :
    List (CFSConfigurationLayer × LayerState) → CFSConfiguration
  | [] => config
  | step :: rest => applyLayers (config.ensure_layer step.1 step.2) rest

/-- The reconcile-and-save loop of `main()` in `bin/main.py` (lines 200-213):
each base configuration is reconciled, unchanged ones are skipped, and for
changed ones the save either succeeds or raises `CFSConfigurationError`.
The save outcome is the oracle `Bool` paired with each configuration.
Returns `(succeeded, skipped, failed)`. -/
def main_save_loop (layer : CFSConfigurationLayer) (state : LayerState) :
    List (CFSConfiguration × Bool) →
      List CFSConfiguration × List CFSConfiguration × List CFSConfiguration
  | [] => ([], [], [])
  | (base_config, save_ok) :: rest =>
    let updated := base_config.ensure_layer layer state
    let r := main_save_loop layer state rest
    if updated.changed then
      if save_ok then (updated :: r.1, r.2.1, r.2.2)
      else (r.1, r.2.1, updated :: r.2.2)
    else
      (r.1, updated :: r.2.1, r.2.2)

/-- The exit code of `main()` (lines 215-223): `SystemExit(1)` when the
`failed` list is nonempty, normal return (exit code 0) otherwise. -/
def main_exit_code (layer : CFSConfigurationLayer) (state : LayerState)
    (base_configs : List (CFSConfiguration × Bool)) : Nat :=
  let r := main_save_loop layer state base_configs
  if r.2.2.isEmpty then 0 else 1

/-- Outcome of querying one CFS component in one polling round (the body of
the `try` in `get_components_by_status`): an `APIError`/JSON error, a
disabled component, or an enabled component with its `configurationStatus`. -/
inductive ComponentQuery
  | queryError
  | disabled
  | status (s : String)
deriving DecidableEq, Repr

/-- One pass of `get_components_by_status` in `wait.py`: split the queried
component IDs into enabled components paired with their status, disabled
components, and components whose query failed. -/
def get_components_by_status (query : String → ComponentQuery)
    (component_ids : List String) :
    List (String × String) × List String × List String :=
  component_ids.foldr
    (fun component_id acc =>
      match query component_id with
      | .queryError => (acc.1, acc.2.1, component_id :: acc.2.2)
      | .disabled => (acc.1, component_id :: acc.2.1, acc.2.2)
      | .status s => ((component_id, s) :: acc.1, acc.2.1, acc.2.2))
    ([], [], [])

/-- The components holding a given status in a by-status table. -/
def statusComponents (by_status : List (String × String)) (s : String) :
    List String :=
  (by_status.filter (fun p => p.2 == s)).map Prod.fst

/-- Result of the wait loop in `wait_for_component_configuration`. -/
inductive WaitOutcome
  /-- The `while pending_components` loop exited; the recorded error set is
  reported in the final summary. -/
  | finished (error_components : List String)
  /-- The uncaught exception raised by `error_components.extend(...)`:
  `error_components` is a `set`, which has no `extend` method. -/
  | attributeError
  /-- The loop was still running when the fuel ran out (the source loop is
  unbounded). -/
  | running (pending_components : List String)
deriving DecidableEq, Repr

/-- The `while pending_components` loop of `wait_for_component_configuration`
(`wait.py` lines 112-133).  `query round` is the component-query oracle for
one polling round; `fuel` bounds the number of modelled rounds.  Components
reporting a non-pending status leave the pending set; then, if any query
failed this round, the source executes `error_components.extend(...)` on a
`set` and raises `AttributeError`; otherwise newly disabled components leave
the pending set and the loop continues. -/
def wait_loop (query : Nat → String → ComponentQuery) :
    Nat → Nat → List String → List String → WaitOutcome
  | 0, _, pending_components, error_components =>
    if pending_components.isEmpty then .finished error_components
    else .running pending_components
  | fuel + 1, round, pending_components, error_components =>
    if pending_components.isEmpty then .finished error_components
    else
      let r := get_components_by_status (query round) pending_components
      let non_pending := (r.1.filter (fun p => !(p.2 == "pending"))).map Prod.fst
      let pending1 := pending_components.filter (fun cid => !(non_pending.contains cid))
      if !r.2.2.isEmpty then .attributeError
      else
        let pending2 := pending1.filter (fun cid => !(r.2.1.contains cid))
        wait_loop query fuel (round + 1) pending2 error_components

/-- Wait for CFS components to finish configuration
(`wait_for_component_configuration` in `wait.py`): query all components once
(round 0), record disabled and failing components, then poll the components
reported `pending`. -/
def wait_for_component_configuration (query : Nat → String → ComponentQuery)
    (wait_component_ids : List String) (fuel : Nat) : WaitOutcome :=
  let r := get_components_by_status (query 0) wait_component_ids
  wait_loop query fuel 1 (statusComponents r.1 "pending") r.2.2

/-- Clone URL of the example layer used in the repository's test fixtures. -/
def exampleUrl : String :=
  "https://api-gw-service-nmn.local/vcs/cray/example-config-management.git"

/-- Clone URL of a second, unrelated repository. -/
def newUrl : String :=
  "https://api-gw-service-nmn.local/vcs/cray/new-config-management.git"

/-- Clone URL of a third, unrelated repository. -/
def thirdUrl : String :=
  "https://api-gw-service-nmn.local/vcs/cray/third-config-management.git"

/-- An existing stored layer with commit `aaa`. -/
def exampleLayer : CFSConfigurationLayer :=
  ⟨exampleUrl, some "example-config", some "example-config.yml", some "aaa", none⟩

/-- The same layer slot (same repo path and playbook) with commit `bbb`. -/
def exampleLayerNewCommit : CFSConfigurationLayer :=
  ⟨exampleUrl, some "example-config", some "example-config.yml", some "bbb", none⟩

/-- A layer for a different repository (a different slot). -/
def newLayer : CFSConfigurationLayer :=
  ⟨newUrl, some "new-config", some "new-config.yml", some "fedcba", none⟩

/-- A layer for a third repository (a different slot). -/
def thirdLayer : CFSConfigurationLayer :=
  ⟨thirdUrl, some "third-config", some "third-config.yml", some "123abc", none⟩

/-- A configuration holding just the example layer, freshly constructed. -/
def exampleConfig : CFSConfiguration := ⟨[exampleLayer], false⟩

/-- A three-layer configuration `[A, B, D]` whose middle layer is the example
layer. -/
def sandwichConfig : CFSConfiguration := ⟨[newLayer, exampleLayer, thirdLayer], false⟩

/-- A configuration with two duplicate matching layers and one unrelated
layer, mirroring the `duplicate_layer_config_data` test fixture. -/
def duplicateConfig : CFSConfiguration := ⟨[exampleLayer, exampleLayer, newLayer], false⟩

/-- A batch of three base configurations paired with save outcomes: one
changes and saves, one changes and fails to save, one is left unchanged. -/
def saveBatch : List (CFSConfiguration × Bool) :=
  [(exampleConfig, true), (sandwichConfig, false),
   (⟨[exampleLayerNewCommit], false⟩, true)]

/-- Stored layer data whose `name` field is present but holds the empty
string: loadable (its `branch` is truthy), yet the empty-string field is
falsy and is dropped by `req_payload`. -/
def emptyNameLayerData : LayerData :=
  ⟨some exampleUrl, none, some "main", some "", none⟩

/-- The layer that `from_cfs` builds from `emptyNameLayerData`. -/
def emptyNameLayer : CFSConfigurationLayer :=
  ⟨exampleUrl, some "", none, none, some "main"⟩

/-- The configuration loaded from `[emptyNameLayerData]`. -/
def emptyNameConfig : CFSConfiguration := ⟨[emptyNameLayer], false⟩

/-- Stored layer data with all fields present and non-empty. -/
def fullLayerData : LayerData :=
  ⟨some newUrl, some "fedcba", none, some "new-config", some "new-config.yml"⟩

/-- Component-query oracle for the wait loop: in round 0 both components are
pending; in round 1 component `c1` reaches `configured` while the query for
`c2` fails. -/
def waitQuerySecondRoundError (round : Nat) (cid : String) : ComponentQuery :=
  if round == 0 then .status "pending"
  else if cid == "c2" then .queryError
  else .status "configured"

/-- Component-query oracle for the wait loop: in round 0 the query for `c2`
fails while `c1` is pending; from round 1 on `c1` is `configured`. -/
def waitQueryFirstRoundError (round : Nat) (cid : String) : ComponentQuery :=
  if cid == "c2" then .queryError
  else if round == 0 then .status "pending"
  else .status "configured"

/-- Bind of `Except` applied to a success, reduced. -/
theorem except_bind_ok {ε α β : Type} (a : α) (f : α → Except ε β) :
    (Except.ok (ε := ε) a >>= f) = f a := rfl

/-- Bind of `Except` applied to an error, reduced. -/
theorem except_bind_error {ε α β : Type} (e : ε) (f : α → Except ε β) :
    ((Except.error e : Except ε α) >>= f) = Except.error e := rfl

/-- A layer always matches itself. -/
theorem matches_self (l : CFSConfigurationLayer) : l.matches l = true := by
  simp [CFSConfigurationLayer.matches]

/-- The updated-values diff is empty exactly when the two layers agree on
every persisted property, i.e. are equal. -/
theorem get_updated_values_eq_nil_iff (x y : CFSConfigurationLayer) :
    x.get_updated_values y = [] ↔ x = y := by
  cases x
  cases y
  simp only [CFSConfigurationLayer.get_updated_values, CFSConfigurationLayer.propPairs,
    List.filter_cons, List.filter_nil]
  split_ifs <;> simp_all

/-- Diffing a layer against itself yields no updated values. -/
theorem get_updated_values_self (x : CFSConfigurationLayer) :
    x.get_updated_values x = [] :=
  (get_updated_values_eq_nil_iff x x).mpr rfl

/-- Mapping a function over a list is the identity iff it fixes every
element. -/
theorem list_map_eq_self {α : Type} (f : α → α) (l : List α) :
    l.map f = l ↔ ∀ x ∈ l, f x = x := by
  induction l with
  | nil => simp
  | cons a l ih => simp [ih]

/-- Characterization of the `ensure_layer` scan for `PRESENT`: matching
layers are replaced by the candidate in place, `found_match` is whether any
layer matches, and the scan sets `changed` iff some matching layer has a
nonempty diff against the candidate. -/
theorem ensureLayerScan_present (layer : CFSConfigurationLayer)
    (ls : List CFSConfigurationLayer) :
    ensureLayerScan layer .PRESENT ls =
      (ls.map (fun x => if layer.matches x then layer else x),
       ls.any (fun x => layer.matches x),
       ls.any (fun x => layer.matches x && !(x.get_updated_values layer).isEmpty)) := by
  induction ls with
  | nil => rfl
  | cons a l ih =>
    by_cases h : layer.matches a = true
    · simp [ensureLayerScan, ih, h]
    · have h' : layer.matches a = false := by simpa using h
      simp [ensureLayerScan, ih, h']

/-- Characterization of the `ensure_layer` scan for `ABSENT`: matching layers
are dropped, and both `found_match` and `changed` are whether any layer
matches. -/
theorem ensureLayerScan_absent (layer : CFSConfigurationLayer)
    (ls : List CFSConfigurationLayer) :
    ensureLayerScan layer .ABSENT ls =
      (ls.filter (fun x => !(layer.matches x)),
       ls.any (fun x => layer.matches x),
       ls.any (fun x => layer.matches x)) := by
  induction ls with
  | nil => rfl
  | cons a l ih =>
    by_cases h : layer.matches a = true
    · simp [ensureLayerScan, ih, h, List.filter_cons]
    · have h' : layer.matches a = false := by simpa using h
      simp [ensureLayerScan, ih, h', List.filter_cons]

/-- `ensure_layer` with `PRESENT` when some layer matches: in-place
replacement of every matching layer. -/
theorem ensure_layer_present_found (config : CFSConfiguration)
    (layer : CFSConfigurationLayer)
    (h : config.layers.any (fun x => layer.matches x) = true) :
    config.ensure_layer layer .PRESENT =
      ⟨config.layers.map (fun x => if layer.matches x then layer else x),
       config.changed ||
         config.layers.any
           (fun x => layer.matches x && !(x.get_updated_values layer).isEmpty)⟩ := by
  simp [CFSConfiguration.ensure_layer, ensureLayerScan_present, h]

/-- `ensure_layer` with `PRESENT` when no layer matches: append the candidate
and set `changed`. -/
theorem ensure_layer_present_not_found (config : CFSConfiguration)
    (layer : CFSConfigurationLayer)
    (h : config.layers.any (fun x => layer.matches x) = false) :
    config.ensure_layer layer .PRESENT = ⟨config.layers ++ [layer], true⟩ := by
  have hmap : config.layers.map (fun x => if layer.matches x then layer else x)
      = config.layers := by
    rw [list_map_eq_self]
    intro x hx
    have hm := List.any_eq_false.mp h x hx
    simp [hm]
  simp [CFSConfiguration.ensure_layer, ensureLayerScan_present, h, hmap]

/-- `ensure_layer` with `ABSENT` when some layer matches: drop every matching
layer and set `changed`. -/
theorem ensure_layer_absent_found (config : CFSConfiguration)
    (layer : CFSConfigurationLayer)
    (h : config.layers.any (fun x => layer.matches x) = true) :
    config.ensure_layer layer .ABSENT =
      ⟨config.layers.filter (fun x => !(layer.matches x)), true⟩ := by
  simp [CFSConfiguration.ensure_layer, ensureLayerScan_absent, h]

/-- `ensure_layer` with `ABSENT` when no layer matches: complete no-op. -/
theorem ensure_layer_absent_not_found (config : CFSConfiguration)
    (layer : CFSConfigurationLayer)
    (h : config.layers.any (fun x => layer.matches x) = false) :
    config.ensure_layer layer .ABSENT = config := by
  have hfil : config.layers.filter (fun x => !(layer.matches x)) = config.layers := by
    rw [List.filter_eq_self]
    intro a ha
    have hm := List.any_eq_false.mp h a ha
    simp [hm]
  simp [CFSConfiguration.ensure_layer, ensureLayerScan_absent, h, hfil]

/-- `ensure_layer` never resets the `changed` flag. -/
theorem ensure_layer_changed_mono (config : CFSConfiguration)
    (layer : CFSConfigurationLayer) (state : LayerState)
    (h : config.changed = true) :
    (config.ensure_layer layer state).changed = true := by
  cases state with
  | PRESENT =>
    cases hany : config.layers.any (fun x => layer.matches x) with
    | true => rw [ensure_layer_present_found config layer hany]; simp [h]
    | false => rw [ensure_layer_present_not_found config layer hany]
  | ABSENT =>
    cases hany : config.layers.any (fun x => layer.matches x) with
    | true => rw [ensure_layer_absent_found config layer hany]
    | false => rw [ensure_layer_absent_not_found config layer hany]; exact h

/-- A whole batch of `ensure_layer` steps never resets the `changed` flag. -/
theorem applyLayers_changed_mono (steps : List (CFSConfigurationLayer × LayerState)) :
    ∀ config : CFSConfiguration, config.changed = true →
      (applyLayers config steps).changed = true := by
  induction steps with
  | nil => intro config h; exact h
  | cons s rest ih =>
    intro config h
    exact ih _ (ensure_layer_changed_mono _ _ _ h)

/-- On a configuration whose flag is clear, one `ensure_layer` step reports a
change exactly when it altered the layer sequence. -/
theorem ensure_layer_changed_iff (config : CFSConfiguration)
    (layer : CFSConfigurationLayer) (state : LayerState)
    (h : config.changed = false) :
    ((config.ensure_layer layer state).changed = true ↔
      (config.ensure_layer layer state).layers ≠ config.layers) := by
  cases state with
  | PRESENT =>
    cases hany : config.layers.any (fun x => layer.matches x) with
    | false =>
      rw [ensure_layer_present_not_found config layer hany]
      simp only [true_iff]
      intro hEq
      have := congrArg List.length hEq
      simp at this
    | true =>
      rw [ensure_layer_present_found config layer hany]
      simp only [h, Bool.false_or, List.any_eq_true]
      constructor
      · rintro ⟨x, hx, hpx⟩ hEq
        rw [list_map_eq_self] at hEq
        have hfix := hEq x hx
        simp only [Bool.and_eq_true] at hpx
        obtain ⟨hm, hne⟩ := hpx
        rw [if_pos hm] at hfix
        rw [← hfix, get_updated_values_self] at hne
        simp at hne
      · intro hne
        by_contra hall
        push_neg at hall
        apply hne
        rw [list_map_eq_self]
        intro x hx
        have hnx := hall x hx
        by_cases hm : layer.matches x = true
        · rw [if_pos hm]
          rw [hm, Bool.true_and] at hnx
          have : (x.get_updated_values layer).isEmpty = true := by
            cases hie : (x.get_updated_values layer).isEmpty with
            | true => rfl
            | false => rw [hie] at hnx; simp at hnx
          have := List.isEmpty_iff.mp this
          exact ((get_updated_values_eq_nil_iff x layer).mp this).symm
        · rw [if_neg hm]
  | ABSENT =>
    cases hany : config.layers.any (fun x => layer.matches x) with
    | false =>
      rw [ensure_layer_absent_not_found config layer hany]
      simp [h]
    | true =>
      rw [ensure_layer_absent_found config layer hany]
      simp only [true_iff]
      intro hEq
      rw [List.filter_eq_self] at hEq
      rcases List.any_eq_true.mp hany with ⟨x, hx, hm⟩
      have := hEq x hx
      rw [hm] at this
      simp at this

/-- On a configuration whose flag is clear, an `ensure_layer` step that
reports no change leaves the layer sequence untouched. -/
theorem ensure_layer_unchanged_layers (config : CFSConfiguration)
    (layer : CFSConfigurationLayer) (state : LayerState)
    (h : config.changed = false)
    (h2 : (config.ensure_layer layer state).changed = false) :
    (config.ensure_layer layer state).layers = config.layers := by
  by_contra hne
  have := (ensure_layer_changed_iff config layer state h).mpr hne
  rw [h2] at this
  exact Bool.noConfusion this

/-- After a `PRESENT` reconcile, every layer matching the candidate is the
candidate itself. -/
theorem ensure_layer_present_post_fix (config : CFSConfiguration)
    (layer : CFSConfigurationLayer) :
    ∀ x ∈ (config.ensure_layer layer .PRESENT).layers,
      layer.matches x = true → x = layer := by
  cases hany : config.layers.any (fun x => layer.matches x) with
  | true =>
    rw [ensure_layer_present_found config layer hany]
    intro x hx hm
    rcases List.mem_map.mp hx with ⟨y, hy, hxy⟩
    by_cases hmy : layer.matches y = true
    · rw [if_pos hmy] at hxy
      exact hxy.symm
    · rw [if_neg hmy] at hxy
      subst hxy
      exact absurd hm hmy
  | false =>
    rw [ensure_layer_present_not_found config layer hany]
    intro x hx hm
    rcases List.mem_append.mp hx with hx | hx
    · exact absurd hm (List.any_eq_false.mp hany x hx)
    · exact List.mem_singleton.mp hx

/-- After a `PRESENT` reconcile, some layer matches the candidate. -/
theorem ensure_layer_present_post_found (config : CFSConfiguration)
    (layer : CFSConfigurationLayer) :
    (config.ensure_layer layer .PRESENT).layers.any
      (fun x => layer.matches x) = true := by
  cases hany : config.layers.any (fun x => layer.matches x) with
  | true =>
    rw [ensure_layer_present_found config layer hany]
    rcases List.any_eq_true.mp hany with ⟨y, hy, hmy⟩
    exact List.any_eq_true.mpr
      ⟨layer, List.mem_map.mpr ⟨y, hy, by rw [if_pos hmy]⟩, matches_self layer⟩
  | false =>
    rw [ensure_layer_present_not_found config layer hany]
    exact List.any_eq_true.mpr
      ⟨layer, List.mem_append.mpr (Or.inr (List.mem_singleton.mpr rfl)),
        matches_self layer⟩

/-- A `PRESENT` reconcile on a configuration in which every matching layer
already equals the candidate (and at least one layer matches) is a complete
no-op. -/
theorem ensure_layer_present_fixed (ls : List CFSConfigurationLayer) (b : Bool)
    (layer : CFSConfigurationLayer)
    (hfix : ∀ x ∈ ls, layer.matches x = true → x = layer)
    (hfound : ls.any (fun x => layer.matches x) = true) :
    CFSConfiguration.ensure_layer ⟨ls, b⟩ layer .PRESENT = ⟨ls, b⟩ := by
  rw [ensure_layer_present_found ⟨ls, b⟩ layer hfound]
  have hmap : ls.map (fun x => if layer.matches x then layer else x) = ls := by
    rw [list_map_eq_self]
    intro x hx
    by_cases hm : layer.matches x = true
    · rw [if_pos hm]
      exact (hfix x hx hm).symm
    · rw [if_neg hm]
  have hchg : ls.any (fun x => layer.matches x &&
      !(x.get_updated_values layer).isEmpty) = false := by
    rw [List.any_eq_false]
    intro x hx
    by_cases hm : layer.matches x = true
    · have hxl := hfix x hx hm
      subst hxl
      simp [hm, get_updated_values_self]
    · have hm' : layer.matches x = false := by simpa using hm
      simp [hm']
  simp [hmap, hchg]

/-- The layer built by `from_cfs` serializes back to exactly the truthy
fields of the stored layer data. -/
theorem from_cfs_req_payload (d : LayerData) (l : CFSConfigurationLayer)
    (h : CFSConfigurationLayer.from_cfs d = .ok l) :
    l.req_payload = d.truthyFields := by
  unfold CFSConfigurationLayer.from_cfs CFSConfigurationLayer.mk? at h
  split at h
  · injection h with h'
    subst h'
    cases d with
    | mk cu c b n p =>
      cases cu <;>
        simp [CFSConfigurationLayer.req_payload, LayerData.truthyFields, Option.getD]
  · exact Except.noConfusion h

/-- Parsed layers serialize back to the truthy fields of the stored data. -/
theorem parseLayers_req_payload (lds : List LayerData) :
    ∀ ls : List CFSConfigurationLayer, parseLayers lds = .ok ls →
      ls.map CFSConfigurationLayer.req_payload = lds.map LayerData.truthyFields := by
  induction lds with
  | nil =>
    intro ls h
    injection h with h'
    subst h'
    rfl
  | cons d rest ih =>
    intro ls h
    cases hd : CFSConfigurationLayer.from_cfs d with
    | error e =>
      rw [parseLayers, hd, except_bind_error] at h
      exact Except.noConfusion h
    | ok l =>
      cases hrest : parseLayers rest with
      | error e =>
        rw [parseLayers, hd, except_bind_ok, hrest, except_bind_error] at h
        exact Except.noConfusion h
      | ok ls' =>
        rw [parseLayers, hd, except_bind_ok, hrest, except_bind_ok] at h
        injection h with h'
        subst h'
        simp [from_cfs_req_payload d l hd, ih ls' hrest]

/-- A successfully constructed configuration has a clear `changed` flag and
carries exactly the parsed layers. -/
theorem ofData_ok (lds : List LayerData) (C : CFSConfiguration)
    (h : CFSConfiguration.ofData lds = .ok C) :
    C.changed = false ∧ parseLayers lds = .ok C.layers := by
  unfold CFSConfiguration.ofData at h
  cases hp : parseLayers lds with
  | error e =>
    rw [hp, except_bind_error] at h
    exact Except.noConfusion h
  | ok ls =>
    rw [hp, except_bind_ok] at h
    injection h with h'
    subst h'
    exact ⟨rfl, rfl⟩

/-- A batch of reconcile steps that ends with a clear `changed` flag never
touched the layer sequence. -/
theorem applyLayers_unchanged (steps : List (CFSConfigurationLayer × LayerState)) :
    ∀ config : CFSConfiguration, config.changed = false →
      (applyLayers config steps).changed = false →
      (applyLayers config steps).layers = config.layers := by
  induction steps with
  | nil => intro config _ _; rfl
  | cons s rest ih =>
    intro config h hfin
    have hstep : (config.ensure_layer s.1 s.2).changed = false := by
      cases hc : (config.ensure_layer s.1 s.2).changed with
      | false => rfl
      | true =>
        have := applyLayers_changed_mono rest _ hc
        rw [applyLayers] at hfin
        rw [this] at hfin
        exact Bool.noConfusion hfin
    have hlay := ensure_layer_unchanged_layers config s.1 s.2 h hstep
    rw [applyLayers]
    rw [ih _ hstep ?_, hlay]
    rw [applyLayers] at hfin
    exact hfin

/-- C1: for any configuration `C` and candidate layer `L`, applying
`ensure_layer(L, PRESENT)` and then applying it again is idempotent: the
second application is a complete no-op on the resulting configuration (so the
layer sequences after both applications are identical), and a second
application considered on its own (clear `changed` flag) reports
`changed = false`. -/
theorem c1_present_reconcile_idempotent (C : CFSConfiguration)
    (L : CFSConfigurationLayer) :
    (C.ensure_layer L .PRESENT).ensure_layer L .PRESENT =
      C.ensure_layer L .PRESENT ∧
    ((CFSConfiguration.mk (C.ensure_layer L .PRESENT).layers false).ensure_layer
        L .PRESENT).changed = false := by
  have hfix := ensure_layer_present_post_fix C L
  have hfound := ensure_layer_present_post_found C L
  constructor
  · exact ensure_layer_present_fixed (C.ensure_layer L .PRESENT).layers
      (C.ensure_layer L .PRESENT).changed L hfix hfound
  · rw [ensure_layer_present_fixed (C.ensure_layer L .PRESENT).layers false L
      hfix hfound]

/-- C2: when some layer `B` of the configuration matches the candidate `L`,
`PRESENT` replaces every matching layer by `L` at its original index (full
replacement of all persisted fields, same length, non-matching layers emitted
unchanged in order) and `ABSENT` removes the matching layers while keeping
the non-matching ones in order. -/
theorem c2_match_replaced_in_place (C : CFSConfiguration)
    (L B : CFSConfigurationLayer) (hB : B ∈ C.layers)
    (hm : L.matches B = true) :
    (C.ensure_layer L .PRESENT).layers =
      C.layers.map (fun x => if L.matches x then L else x) ∧
    (C.ensure_layer L .PRESENT).layers.length = C.layers.length ∧
    (C.ensure_layer L .ABSENT).layers =
      C.layers.filter (fun x => !(L.matches x)) := by
  have hfound : C.layers.any (fun x => L.matches x) = true :=
    List.any_eq_true.mpr ⟨B, hB, hm⟩
  refine ⟨?_, ?_, ?_⟩
  · rw [ensure_layer_present_found C L hfound]
  · rw [ensure_layer_present_found C L hfound]
    simp
  · rw [ensure_layer_absent_found C L hfound]

/-- Witness for C2 on the `[A, B, D]` configuration of the spec: the matching
middle layer is replaced in place by `PRESENT` (giving `[A, L, D]`) and
removed by `ABSENT` (giving `[A, D]`). -/
theorem c2_witness :
    exampleLayer ∈ sandwichConfig.layers ∧
    exampleLayerNewCommit.matches exampleLayer = true ∧
    (sandwichConfig.ensure_layer exampleLayerNewCommit .PRESENT).layers =
      sandwichConfig.layers.map
        (fun x => if exampleLayerNewCommit.matches x then exampleLayerNewCommit
          else x) ∧
    (sandwichConfig.ensure_layer exampleLayerNewCommit .PRESENT).layers =
      [newLayer, exampleLayerNewCommit, thirdLayer] ∧
    (sandwichConfig.ensure_layer exampleLayerNewCommit .ABSENT).layers =
      [newLayer, thirdLayer] :=
  ⟨by decide, by decide,
   (c2_match_replaced_in_place sandwichConfig exampleLayerNewCommit exampleLayer
      (by decide) (by decide)).1,
   by decide, by decide⟩

/-- C3: `matches(a, b)` holds iff the path components of the clone URLs are
equal and the playbooks are exactly equal (including both absent); it is
independent of commit, branch and name, and the path comparison is
case-sensitive with no trailing-slash or `.git` normalization. -/
theorem c3_matches_repo_path_playbook :
    (∀ a b : CFSConfigurationLayer,
        a.matches b = true ↔ a.repo_path = b.repo_path ∧ a.playbook = b.playbook) ∧
    (∀ a b : CFSConfigurationLayer, a.clone_url = b.clone_url →
        a.playbook = b.playbook → a.matches b = true) ∧
    CFSConfigurationLayer.matches
        ⟨"https://vcs.local/vcs/cray/Repo.git", none, none, some "aaa", none⟩
        ⟨"https://vcs.local/vcs/cray/repo.git", none, none, some "aaa", none⟩
      = false ∧
    CFSConfigurationLayer.matches
        ⟨"https://vcs.local/vcs/cray/repo.git", none, none, some "aaa", none⟩
        ⟨"https://vcs.local/vcs/cray/repo.git/", none, none, some "aaa", none⟩
      = false ∧
    CFSConfigurationLayer.matches
        ⟨"https://vcs.local/vcs/cray/repo.git", none, none, some "aaa", none⟩
        ⟨"https://vcs.local/vcs/cray/repo", none, none, some "aaa", none⟩
      = false := by
  refine ⟨?_, ?_, by decide, by decide, by decide⟩
  · intro a b
    simp [CFSConfigurationLayer.matches]
  · intro a b hcu hp
    simp [CFSConfigurationLayer.matches, CFSConfigurationLayer.repo_path, hcu, hp]

/-- Witness for C3: two layers differing only in commit and name match. -/
theorem c3_witness :
    exampleLayerNewCommit.clone_url = exampleLayer.clone_url ∧
    exampleLayerNewCommit.playbook = exampleLayer.playbook ∧
    exampleLayerNewCommit.matches exampleLayer = true :=
  ⟨rfl, rfl,
   c3_matches_repo_path_playbook.2.1 exampleLayerNewCommit exampleLayer rfl rfl⟩

/-- C4: starting from a clear flag, one `ensure_layer` step reports
`changed = true` iff it actually altered the layer sequence (added, removed,
or replaced a matching layer with one differing in some persisted property);
in particular a matching layer whose commit differs from the candidate's
yields `changed = true` with the stored layer becoming the candidate, and an
identical matching layer yields `changed = false`. -/
theorem c4_changed_flag_detection :
    (∀ (C : CFSConfiguration) (L : CFSConfigurationLayer) (s : LayerState),
        C.changed = false →
          ((C.ensure_layer L s).changed = true ↔
            (C.ensure_layer L s).layers ≠ C.layers)) ∧
    (exampleConfig.ensure_layer exampleLayerNewCommit .PRESENT).changed = true ∧
    (exampleConfig.ensure_layer exampleLayerNewCommit .PRESENT).layers =
      [exampleLayerNewCommit] ∧
    (exampleConfig.ensure_layer exampleLayer .PRESENT).changed = false :=
  ⟨ensure_layer_changed_iff, by decide, by decide, by decide⟩

/-- Witness for C4 at the spec's commit example. -/
theorem c4_witness :
    exampleConfig.changed = false ∧
    ((exampleConfig.ensure_layer exampleLayerNewCommit .PRESENT).changed = true ↔
      (exampleConfig.ensure_layer exampleLayerNewCommit .PRESENT).layers ≠
        exampleConfig.layers) :=
  ⟨rfl, c4_changed_flag_detection.1 exampleConfig exampleLayerNewCommit .PRESENT rfl⟩

/-- C5: with no matching layer, `PRESENT` appends the candidate at the end
and sets `changed = true`, while `ABSENT` is a complete no-op, leaving both
the layer sequence and the `changed` flag untouched. -/
theorem c5_no_match (C : CFSConfiguration) (L : CFSConfigurationLayer)
    (h : ∀ B ∈ C.layers, L.matches B = false) :
    (C.ensure_layer L .PRESENT).layers = C.layers ++ [L] ∧
    (C.ensure_layer L .PRESENT).changed = true ∧
    C.ensure_layer L .ABSENT = C := by
  have hany : C.layers.any (fun x => L.matches x) = false := by
    rw [List.any_eq_false]
    intro x hx
    simp [h x hx]
  refine ⟨?_, ?_, ensure_layer_absent_not_found C L hany⟩
  · rw [ensure_layer_present_not_found C L hany]
  · rw [ensure_layer_present_not_found C L hany]

/-- Witness for C5 at a concrete non-matching candidate. -/
theorem c5_witness :
    exampleConfig.layers.all (fun B => !(newLayer.matches B)) = true ∧
    (exampleConfig.ensure_layer newLayer .PRESENT).layers =
      exampleConfig.layers ++ [newLayer] ∧
    (exampleConfig.ensure_layer newLayer .PRESENT).changed = true ∧
    exampleConfig.ensure_layer newLayer .ABSENT = exampleConfig :=
  ⟨by decide,
   (c5_no_match exampleConfig newLayer (by decide)).1,
   (c5_no_match exampleConfig newLayer (by decide)).2.1,
   (c5_no_match exampleConfig newLayer (by decide)).2.2⟩

/-- C6: with two or more matching layers, `PRESENT` replaces every one of
them in place with the candidate and `ABSENT` removes all of them; the
reconcile is total — it returns these results and raises no duplicate-layer
error. -/
theorem c6_duplicate_matches (C : CFSConfiguration) (L : CFSConfigurationLayer)
    (h : 2 ≤ (C.layers.filter (fun x => L.matches x)).length) :
    (C.ensure_layer L .PRESENT).layers =
      C.layers.map (fun x => if L.matches x then L else x) ∧
    (∀ x ∈ (C.ensure_layer L .PRESENT).layers, L.matches x = true → x = L) ∧
    (C.ensure_layer L .PRESENT).layers.length = C.layers.length ∧
    (C.ensure_layer L .ABSENT).layers =
      C.layers.filter (fun x => !(L.matches x)) ∧
    (∀ x ∈ (C.ensure_layer L .ABSENT).layers, L.matches x = false) := by
  have hne : C.layers.filter (fun x => L.matches x) ≠ [] := by
    intro hnil
    rw [hnil] at h
    simp at h
  obtain ⟨B, hBf⟩ := List.exists_mem_of_ne_nil _ hne
  have hfound : C.layers.any (fun x => L.matches x) = true :=
    List.any_eq_true.mpr ⟨B, List.mem_of_mem_filter hBf, List.of_mem_filter hBf⟩
  refine ⟨?_, ensure_layer_present_post_fix C L, ?_, ?_, ?_⟩
  · rw [ensure_layer_present_found C L hfound]
  · rw [ensure_layer_present_found C L hfound]
    simp
  · rw [ensure_layer_absent_found C L hfound]
  · rw [ensure_layer_absent_found C L hfound]
    intro x hx
    simpa using List.of_mem_filter hx

/-- Witness for C6 on a configuration with two duplicate matching layers. -/
theorem c6_witness :
    2 ≤ (duplicateConfig.layers.filter
        (fun x => exampleLayerNewCommit.matches x)).length ∧
    (duplicateConfig.ensure_layer exampleLayerNewCommit .PRESENT).layers =
      duplicateConfig.layers.map
        (fun x => if exampleLayerNewCommit.matches x then exampleLayerNewCommit
          else x) ∧
    (duplicateConfig.ensure_layer exampleLayerNewCommit .PRESENT).layers =
      [exampleLayerNewCommit, exampleLayerNewCommit, newLayer] ∧
    (duplicateConfig.ensure_layer exampleLayerNewCommit .ABSENT).layers =
      [newLayer] :=
  ⟨by decide,
   (c6_duplicate_matches duplicateConfig exampleLayerNewCommit (by decide)).1,
   by decide, by decide⟩

/-- C10: the `changed` flag is monotone: construction initializes it to
`false`, a single `ensure_layer` application never resets it, and therefore
once any application reports a change it remains `true` across every
subsequent application to the same configuration object. -/
theorem c10_changed_monotone :
    (∀ (lds : List LayerData) (C : CFSConfiguration),
        CFSConfiguration.ofData lds = .ok C → C.changed = false) ∧
    (∀ (C : CFSConfiguration) (L : CFSConfigurationLayer) (s : LayerState),
        C.changed = true → (C.ensure_layer L s).changed = true) ∧
    (∀ (C : CFSConfiguration) (steps : List (CFSConfigurationLayer × LayerState)),
        C.changed = true → (applyLayers C steps).changed = true) := by
  refine ⟨?_, ensure_layer_changed_mono, ?_⟩
  · intro lds C h
    exact (ofData_ok lds C h).1
  · intro C steps h
    exact applyLayers_changed_mono steps C h

/-- Witness for C10 at concrete inputs. -/
theorem c10_witness :
    CFSConfiguration.ofData [fullLayerData] = .ok ⟨[newLayer], false⟩ ∧
    (CFSConfiguration.mk [newLayer] false).changed = false ∧
    ((CFSConfiguration.mk [] true).ensure_layer exampleLayer .ABSENT).changed
      = true ∧
    (applyLayers ⟨[], true⟩ [(exampleLayer, .PRESENT)]).changed = true :=
  ⟨by rfl,
   c10_changed_monotone.1 [fullLayerData] ⟨[newLayer], false⟩ (by rfl),
   c10_changed_monotone.2.1 ⟨[], true⟩ exampleLayer .ABSENT rfl,
   c10_changed_monotone.2.2 ⟨[], true⟩ [(exampleLayer, .PRESENT)] rfl⟩

/-- Closed form of the `main()` save loop: the succeeded, skipped and failed
lists are the reconciled configurations filtered by save outcome and
`changed` flag, in input order. -/
theorem main_save_loop_eq (L : CFSConfigurationLayer) (s : LayerState)
    (cfgs : List (CFSConfiguration × Bool)) :
    main_save_loop L s cfgs =
      (((cfgs.map (fun p => (p.1.ensure_layer L s, p.2))).filter
          (fun p => p.1.changed && p.2)).map Prod.fst,
       ((cfgs.map (fun p => (p.1.ensure_layer L s, p.2))).filter
          (fun p => !p.1.changed)).map Prod.fst,
       ((cfgs.map (fun p => (p.1.ensure_layer L s, p.2))).filter
          (fun p => p.1.changed && !p.2)).map Prod.fst) := by
  induction cfgs with
  | nil => rfl
  | cons p rest ih =>
    obtain ⟨c, ok⟩ := p
    by_cases hch : (c.ensure_layer L s).changed = true
    · by_cases hok : ok = true
      · simp [main_save_loop, ih, hch, hok, List.filter_cons]
      · have hok' : ok = false := by simpa using hok
        simp [main_save_loop, ih, hch, hok', List.filter_cons]
    · have hch' : (c.ensure_layer L s).changed = false := by simpa using hch
      simp [main_save_loop, ih, hch', List.filter_cons]

/-- Every configuration of the batch lands in exactly one of the three
result lists of the save loop. -/
theorem main_save_loop_length (L : CFSConfigurationLayer) (s : LayerState)
    (cfgs : List (CFSConfiguration × Bool)) :
    (main_save_loop L s cfgs).1.length + (main_save_loop L s cfgs).2.1.length +
      (main_save_loop L s cfgs).2.2.length = cfgs.length := by
  induction cfgs with
  | nil => rfl
  | cons p rest ih =>
    obtain ⟨c, ok⟩ := p
    by_cases hch : (c.ensure_layer L s).changed = true
    · by_cases hok : ok = true
      · simp only [main_save_loop, hch, hok, if_true, List.length_cons]
        omega
      · have hok' : ok = false := by simpa using hok
        simp only [main_save_loop, hch, hok', if_true, if_false,
          Bool.false_eq_true, List.length_cons]
        omega
    · have hch' : (c.ensure_layer L s).changed = false := by simpa using hch
      simp only [main_save_loop, hch', if_false, Bool.false_eq_true,
        List.length_cons]
      omega

/-- The failed list of the save loop is empty exactly when every changed
configuration saved successfully. -/
theorem main_save_loop_failed_empty (L : CFSConfigurationLayer) (s : LayerState)
    (cfgs : List (CFSConfiguration × Bool)) :
    (main_save_loop L s cfgs).2.2 = [] ↔
      ∀ p ∈ cfgs, (p.1.ensure_layer L s).changed = true → p.2 = true := by
  induction cfgs with
  | nil => simp [main_save_loop]
  | cons p rest ih =>
    obtain ⟨c, ok⟩ := p
    by_cases hch : (c.ensure_layer L s).changed = true
    · by_cases hok : ok = true
      · simp [main_save_loop, hch, hok, ih]
      · have hok' : ok = false := by simpa using hok
        simp [main_save_loop, hch, hok']
    · have hch' : (c.ensure_layer L s).changed = false := by simpa using hch
      simp only [main_save_loop, hch', if_false, Bool.false_eq_true, ih]
      constructor
      · intro hall q hq hqch
        rcases List.mem_cons.mp hq with rfl | hq
        · rw [hch'] at hqch
          exact Bool.noConfusion hqch
        · exact hall q hq hqch
      · intro hall q hq hqch
        exact hall q (List.mem_cons_of_mem _ hq) hqch

/-- The failed list of the save loop is nonempty exactly when some changed
configuration failed to save. -/
theorem main_save_loop_failed_nonempty (L : CFSConfigurationLayer)
    (s : LayerState) (cfgs : List (CFSConfiguration × Bool)) :
    (main_save_loop L s cfgs).2.2 ≠ [] ↔
      ∃ p ∈ cfgs, (p.1.ensure_layer L s).changed = true ∧ p.2 = false := by
  rw [Ne, main_save_loop_failed_empty]
  push_neg
  constructor
  · rintro ⟨p, hp, hch, hok⟩
    exact ⟨p, hp, hch, by simpa using hok⟩
  · rintro ⟨p, hp, hch, hok⟩
    exact ⟨p, hp, hch, by simp [hok]⟩

/-- C8: in a batch run, each configuration is reconciled and then either
saved, skipped (unchanged) or recorded as failed — a save failure never
stops the processing of the remaining configurations; failures are
accumulated, the exit code is 1 iff at least one changed configuration
failed to save and 0 iff every changed configuration saved, and skipped
configurations are never counted as failures. -/
theorem c8_batch_save_partial_failure (L : CFSConfigurationLayer)
    (s : LayerState) (cfgs : List (CFSConfiguration × Bool)) :
    main_save_loop L s cfgs =
      (((cfgs.map (fun p => (p.1.ensure_layer L s, p.2))).filter
          (fun p => p.1.changed && p.2)).map Prod.fst,
       ((cfgs.map (fun p => (p.1.ensure_layer L s, p.2))).filter
          (fun p => !p.1.changed)).map Prod.fst,
       ((cfgs.map (fun p => (p.1.ensure_layer L s, p.2))).filter
          (fun p => p.1.changed && !p.2)).map Prod.fst) ∧
    (main_save_loop L s cfgs).1.length + (main_save_loop L s cfgs).2.1.length +
      (main_save_loop L s cfgs).2.2.length = cfgs.length ∧
    (main_exit_code L s cfgs = 0 ↔
      ∀ p ∈ cfgs, (p.1.ensure_layer L s).changed = true → p.2 = true) ∧
    (main_exit_code L s cfgs = 1 ↔
      ∃ p ∈ cfgs, (p.1.ensure_layer L s).changed = true ∧ p.2 = false) := by
  refine ⟨main_save_loop_eq L s cfgs, main_save_loop_length L s cfgs, ?_, ?_⟩
  · rw [← main_save_loop_failed_empty]
    unfold main_exit_code
    by_cases hemp : (main_save_loop L s cfgs).2.2.isEmpty = true
    · simp [hemp, List.isEmpty_iff.mp hemp]
    · have h2 : ¬((main_save_loop L s cfgs).2.2 = []) := by
        intro hh
        exact hemp (by simp [hh])
      simp [hemp, h2]
  · rw [← main_save_loop_failed_nonempty]
    unfold main_exit_code
    by_cases hemp : (main_save_loop L s cfgs).2.2.isEmpty = true
    · simp [hemp, List.isEmpty_iff.mp hemp]
    · have h2 : ¬((main_save_loop L s cfgs).2.2 = []) := by
        intro hh
        exact hemp (by simp [hh])
      simp [hemp, h2]

/-- Witness for C8 on a concrete batch: the middle configuration fails to
save, processing continues (the later configuration is still skipped as
unchanged), and the exit code is 1. -/
theorem c8_witness :
    main_exit_code exampleLayerNewCommit .PRESENT saveBatch = 1 ∧
    (main_exit_code exampleLayerNewCommit .PRESENT saveBatch = 1 ↔
      ∃ p ∈ saveBatch,
        (p.1.ensure_layer exampleLayerNewCommit .PRESENT).changed = true ∧
        p.2 = false) ∧
    (main_save_loop exampleLayerNewCommit .PRESENT saveBatch).1.length = 1 ∧
    (main_save_loop exampleLayerNewCommit .PRESENT saveBatch).2.1.length = 1 ∧
    (main_save_loop exampleLayerNewCommit .PRESENT saveBatch).2.2.length = 1 :=
  ⟨by rfl,
   (c8_batch_save_partial_failure exampleLayerNewCommit .PRESENT saveBatch).2.2.2,
   by rfl, by rfl, by rfl⟩

/-- Witness for C1 at a concrete configuration and candidate. -/
theorem c1_witness :
    (exampleConfig.ensure_layer exampleLayerNewCommit .PRESENT).ensure_layer
        exampleLayerNewCommit .PRESENT =
      exampleConfig.ensure_layer exampleLayerNewCommit .PRESENT ∧
    ((CFSConfiguration.mk
        (exampleConfig.ensure_layer exampleLayerNewCommit .PRESENT).layers
        false).ensure_layer exampleLayerNewCommit .PRESENT).changed = false :=
  c1_present_reconcile_idempotent exampleConfig exampleLayerNewCommit

/-- C9 counterexample: a layer field holding the empty string (here `name`)
is present in the loaded JSON file data but dropped from the saved payload
even though no reconcile step changed anything, so the round trip is not
exact field-for-field as claimed. -/
theorem c9_counterexample :
    CFSConfiguration.ofData [emptyNameLayerData] = .ok emptyNameConfig ∧
    emptyNameConfig.ensure_layer newLayer .ABSENT = emptyNameConfig ∧
    (emptyNameConfig.ensure_layer newLayer .ABSENT).changed = false ∧
    emptyNameLayerData.fields =
      [("cloneUrl", exampleUrl), ("branch", "main"), ("name", "")] ∧
    (emptyNameConfig.ensure_layer newLayer .ABSENT).req_payload =
      [[("cloneUrl", exampleUrl), ("branch", "main")]] ∧
    (emptyNameConfig.ensure_layer newLayer .ABSENT).req_payload ≠
      [emptyNameLayerData.fields] :=
  ⟨by rfl, by rfl, by rfl, by rfl, by rfl, by decide⟩

/-- C9 (amended): after a load→reconcile→save cycle in which no reconcile
step changed anything, the saved payload reproduces, for every layer,
exactly the input fields holding non-empty string values, with those values;
fields that are absent, null, or empty strings in the input are omitted. -/
theorem c9_round_trip_truthy_fields (lds : List LayerData)
    (C : CFSConfiguration) (steps : List (CFSConfigurationLayer × LayerState))
    (hload : CFSConfiguration.ofData lds = .ok C)
    (hunchanged : (applyLayers C steps).changed = false) :
    (applyLayers C steps).req_payload = lds.map LayerData.truthyFields := by
  obtain ⟨hchg, hparse⟩ := ofData_ok lds C hload
  have hlay := applyLayers_unchanged steps C hchg hunchanged
  unfold CFSConfiguration.req_payload
  rw [hlay]
  exact parseLayers_req_payload lds C.layers hparse

/-- Witness for the amended C9 at concrete data and one no-op reconcile
step. -/
theorem c9_witness :
    CFSConfiguration.ofData [fullLayerData] = .ok ⟨[newLayer], false⟩ ∧
    (applyLayers ⟨[newLayer], false⟩ [(exampleLayer, .ABSENT)]).changed = false ∧
    (applyLayers ⟨[newLayer], false⟩ [(exampleLayer, .ABSENT)]).req_payload =
      [fullLayerData].map LayerData.truthyFields :=
  ⟨by rfl, by rfl,
   c9_round_trip_truthy_fields [fullLayerData] ⟨[newLayer], false⟩
     [(exampleLayer, .ABSENT)] (by rfl) (by rfl)⟩

/-- C7: the claim fails on the code at a concrete input.  A per-component
query error in the first round is recorded in the error set and excluded
from polling as the claim states, but a query error in any later polling
round reaches `error_components.extend(new_error_components)` in `wait.py`,
and `error_components` is a `set`, which has no `extend` method: the wait
aborts with `AttributeError` instead of recording the error and continuing
to completion. -/
theorem c7_wait_crash_on_later_round_error :
    wait_for_component_configuration waitQueryFirstRoundError ["c1", "c2"] 5 =
      .finished ["c2"] ∧
    wait_for_component_configuration waitQuerySecondRoundError ["c1", "c2"] 5 =
      .attributeError :=
  ⟨by rfl, by rfl⟩

end CfsConfigUtil
